import Mathlib

/-!
# Wayland-window: the window lifecycle of `src/main.cpp`

A shallow embedding of the client in `src/main.cpp`.

* Pointers returned by the Wayland library are handles (`Nat`, `0` is `NULL`).
* `int32_t` values are `Int`, `uint32_t` and `size_t` values are `Nat`; every
  conversion and every wrapping multiplication is written out with `%`.
  `size_t` is 64 bits wide (the LP64 targets Wayland runs on).
* Every request sent to the server and every system call is appended to a
  trace of `Action`s, in program order.  Text written to stdout and stderr is
  not part of the trace.
* What the operating system and the Wayland library return (file descriptors,
  the result of `mmap`, fresh proxies) is read from explicit records (`OS`,
  `Lib`), so that every theorem quantifies over all their answers.
* A store through the pointer of a failed `mmap` is undefined behaviour; the
  model stops there and marks the run `crashed`.
-/

namespace WaylandWindow

/-! ## Machine integers -/

/-- Number of values of a 32-bit integer. -/
def UINT32_MOD : Nat := 4294967296

/-- Number of values of `size_t` (64 bits). -/
def SIZE_MOD : Nat := 18446744073709551616

/-- Conversion of an `int32_t` to `uint32_t` (argument passing in the call
`create_buffer(win->shm, win->width, win->height)`). -/
def toUInt32 (x : Int) : Nat := (x % (UINT32_MOD : Int)).toNat

/-- Conversion of an unsigned value to `int32_t` (the Wayland request stubs
take `int32_t` sizes): reduction modulo 2^32 into the signed range. -/
def toInt32 (n : Nat) : Int :=
  if n % UINT32_MOD < 2147483648 then ((n % UINT32_MOD : Nat) : Int)
  else ((n % UINT32_MOD : Nat) : Int) - (UINT32_MOD : Int)

/-- Range of an `int32_t`. -/
def isInt32 (x : Int) : Prop := -2147483648 ≤ x ∧ x < 2147483648

instance (x : Int) : Decidable (isInt32 x) := by
  unfold isInt32; infer_instance

/-! ## Constants of `main.cpp` -/

def WIDTH : Int := 300
def HEIGHT : Int := 200
def BYTES_PER_PIXEL : Nat := 4

/-- Opaque black, the value stored in every pixel. -/
def BLACK : Nat := 0xFF000000

/-- Value of `WL_SHM_FORMAT_ARGB8888` in the `wl_shm` protocol. -/
def WL_SHM_FORMAT_ARGB8888 : Nat := 0

/-! ## Data model -/

/-- A pointer to a library object; `0` is `NULL`. -/
abbrev Handle := Nat

/-- The `struct Datos` record: the three bound globals. -/
structure Datos where
  xdg : Handle
  compositor : Handle
  shm : Handle
  deriving DecidableEq, Repr

/-- The `struct WindowData` record. -/
structure WindowData where
  shm : Handle
  surface : Handle
  width : Int
  height : Int
  running : Bool
  deriving DecidableEq, Repr

/-- Library calls (requests to the server, listener registrations) and system
calls, as they appear in a trace. -/
inductive Action where
  /-- System call `mkstemp(tmp_template)` -/
  | sys_mkstemp
  /-- System call `unlink(tmp_template)` -/
  | sys_unlink
  /-- System call `ftruncate(fd, size)` -/
  | sys_ftruncate (fd : Int) (size : Nat)
  /-- System call `close(fd)` -/
  | sys_close (fd : Int)
  /-- System call `mmap(NULL, size, PROT_READ | PROT_WRITE, MAP_SHARED, fd, 0)` -/
  | sys_mmap (size : Nat) (fd : Int)
  /-- System call `munmap(data, size)` -/
  | sys_munmap (size : Nat)
  /-- Call `wl_display_get_registry(display)` -/
  | get_registry (display : Handle)
  /-- Call `wl_registry_add_listener(registry, &registry_listener, &datos)` -/
  | registry_add_listener (registry : Handle)
  /-- Call `wl_display_roundtrip(display)` -/
  | roundtrip (display : Handle)
  /-- Call `wl_registry_bind(registry, id, &<interface>_interface, version)` -/
  | registry_bind (id : Nat) (interface : String) (version : Nat)
  /-- Call `xdg_wm_base_add_listener(xdg, &xdg_listener, NULL)`: the ping listener -/
  | xdg_wm_base_add_listener (xdg : Handle)
  /-- Call `xdg_wm_base_pong(xdg, serial)` -/
  | pong (xdg : Handle) (serial : Nat)
  /-- Call `wl_compositor_create_surface(compositor)` -/
  | create_surface (compositor : Handle)
  /-- Call `xdg_wm_base_get_xdg_surface(xdg, surface)` -/
  | get_xdg_surface (xdg : Handle) (surface : Handle)
  /-- Call `xdg_surface_get_toplevel(xdg_surface)` -/
  | get_toplevel (xdg_surface : Handle)
  /-- Call `xdg_surface_add_listener(xdg_surface, &xdg_surface_listener, &window_data)` -/
  | xdg_surface_add_listener (xdg_surface : Handle)
  /-- Call `xdg_toplevel_add_listener(toplevel, &toplevel_listener, &window_data)` -/
  | xdg_toplevel_add_listener (toplevel : Handle)
  /-- Call `xdg_toplevel_set_title(toplevel, title)` -/
  | set_title (toplevel : Handle) (title : String)
  /-- Call `xdg_toplevel_set_app_id(toplevel, app_id)` -/
  | set_app_id (toplevel : Handle) (app_id : String)
  /-- Call `xdg_surface_ack_configure(xdg_surface, serial)` -/
  | ack_configure (xdg_surface : Handle) (serial : Nat)
  /-- Call `wl_shm_create_pool(shm, fd, size)`; `fd` and `size` are `int32_t` -/
  | create_pool (shm : Handle) (fd : Int) (size : Int)
  /-- Call `wl_shm_pool_create_buffer(pool, offset, width, height, stride, format)`;
  the four geometry arguments are `int32_t` -/
  | pool_create_buffer (pool : Handle) (offset width height stride : Int) (format : Nat)
  /-- Call `wl_shm_pool_destroy(pool)` -/
  | pool_destroy (pool : Handle)
  /-- Call `wl_surface_attach(surface, buffer, x, y)` -/
  | attach (surface : Handle) (buffer : Handle) (x y : Int)
  /-- Call `wl_surface_commit(surface)` -/
  | commit (surface : Handle)
  /-- Call `xdg_toplevel_destroy(toplevel)` -/
  | toplevel_destroy (toplevel : Handle)
  /-- Call `xdg_surface_destroy(xdg_surface)` -/
  | xdg_surface_destroy (xdg_surface : Handle)
  /-- Call `wl_surface_destroy(surface)` -/
  | surface_destroy (surface : Handle)
  /-- Call `wl_display_disconnect(display)` -/
  | disconnect (display : Handle)
  deriving DecidableEq, Repr

/-- What the system and the library return during one call of `create_buffer`. -/
structure OS where
  /-- Descriptor returned by `mkstemp` (negative on failure) -/
  mkstemp : Int
  /-- Value returned by `ftruncate` (negative on failure) -/
  ftruncate : Int
  /-- False when `mmap` returns `MAP_FAILED` -/
  mmap_ok : Bool
  /-- Contents of the mapped region before the fill, by 32-bit word index -/
  mem : Nat → Nat
  /-- Proxy returned by `wl_shm_create_pool` -/
  pool : Handle
  /-- Proxy returned by `wl_shm_pool_create_buffer` -/
  buffer : Handle

/-! ## Registry binder (`xdg_ping`, `registry_listener_global`) -/

/-- The `xdg_ping` handler: answer with a pong carrying the same serial. -/
def xdg_ping (xdg : Handle) (serial : Nat) : List Action :=
  [Action.pong xdg serial]

/-- The `registry_listener_global` handler.  `bind id iface version` is the
proxy `wl_registry_bind` returns.  The three `if`s are sequential, as in the
source; `!strcmp(a, b)` is string equality. -/
def registry_listener_global (bind : Nat → String → Nat → Handle) (datos : Datos)
    (id : Nat) (interface : String) (version : Nat) : Datos × List Action :=
  let r1 : Datos × List Action :=
    if interface = "xdg_wm_base" then
      let xdg := bind id "xdg_wm_base" version
      (Datos.mk xdg datos.compositor datos.shm,
        [Action.registry_bind id "xdg_wm_base" version, Action.xdg_wm_base_add_listener xdg])
    else (datos, [])
  let r2 : Datos × List Action :=
    if interface = "wl_compositor" then
      (Datos.mk r1.1.xdg (bind id "wl_compositor" version) r1.1.shm,
        r1.2 ++ [Action.registry_bind id "wl_compositor" version])
    else r1
  if interface = "wl_shm" then
    (Datos.mk r2.1.xdg r2.1.compositor (bind id "wl_shm" version),
      r2.2 ++ [Action.registry_bind id "wl_shm" version])
  else r2

/-- The `registry_listener_global_remove` handler: it only prints. -/
def registry_listener_global_remove (datos : Datos) (_id : Nat) : Datos × List Action :=
  (datos, [])

/-! ## Shared-memory buffer factory (`create_shm_file`, `create_buffer`) -/

/-- The `create_shm_file` function: the descriptor it returns (`-1` on failure)
and the system calls it makes. -/
def create_shm_file (os : OS) (size : Nat) : Int × List Action :=
  let fd := os.mkstemp
  if fd < 0 then (-1, [Action.sys_mkstemp])
  else if os.ftruncate < 0 then
    (-1, [Action.sys_mkstemp, Action.sys_unlink, Action.sys_ftruncate fd size, Action.sys_close fd])
  else (fd, [Action.sys_mkstemp, Action.sys_unlink, Action.sys_ftruncate fd size])

/-- The fill loop `for (i = 0; i < size / 4; ++i) pixels[i] = 0xFF000000`:
`n` is the number of iterations left (`size / 4 - i`). -/
def fill_pixels : Nat → Nat → (Nat → Nat) → (Nat → Nat)
  | 0, _, pixels => pixels
  | n + 1, i, pixels => fill_pixels n (i + 1) (fun j => if j = i then BLACK else pixels j)

/-- Result of one run of `create_buffer`. -/
structure BufferRun where
  /-- The `wl_buffer` returned -/
  buffer : Handle
  /-- The local `stride` -/
  stride : Nat
  /-- The local `size` -/
  size : Nat
  /-- The descriptor returned by `create_shm_file` -/
  fd : Int
  /-- Memory behind `pixels` when the function ends, by 32-bit word index -/
  pixels : Nat → Nat
  trace : List Action
  /-- Set when the fill loop stored through the pointer of a failed `mmap` -/
  crashed : Bool

/-- The `create_buffer` function.  `width * BYTES_PER_PIXEL` is a `uint32_t`
product, `stride * height` a `size_t` product. -/
def create_buffer (os : OS) (shm : Handle) (width height : Nat) : BufferRun :=
  let stride := (width * BYTES_PER_PIXEL) % UINT32_MOD
  let size := (stride * height) % SIZE_MOD
  let f := create_shm_file os size
  let fd := f.1
  let t := f.2 ++ [Action.sys_mmap size fd]
  if 0 < size / 4 ∧ os.mmap_ok = false then
    BufferRun.mk 0 stride size fd os.mem t true
  else
    BufferRun.mk os.buffer stride size fd (fill_pixels (size / 4) 0 os.mem)
      (t ++ [Action.create_pool shm fd (toInt32 size),
             Action.pool_create_buffer os.pool 0 (toInt32 width) (toInt32 height)
               (toInt32 stride) WL_SHM_FORMAT_ARGB8888,
             Action.pool_destroy os.pool,
             Action.sys_close fd,
             Action.sys_munmap size])
      false

/-! ## Surface handshake (`handle_configure` and the top-level handlers) -/

/-- Result of running a handler on the window: the new `WindowData`, the
actions performed, and whether the run stopped in a crash. -/
structure Run where
  win : WindowData
  trace : List Action
  crashed : Bool

/-- The `handle_configure` handler of the base surface. -/
def handle_configure (os : OS) (win : WindowData) (xdg_surface : Handle) (serial : Nat) : Run :=
  let b := create_buffer os win.shm (toUInt32 win.width) (toUInt32 win.height)
  if b.crashed then
    Run.mk win (Action.ack_configure xdg_surface serial :: b.trace) true
  else
    Run.mk win
      (Action.ack_configure xdg_surface serial :: b.trace ++
        [Action.attach win.surface b.buffer 0 0, Action.commit win.surface])
      false

/-- The `toplevel_handle_configure` handler. -/
def toplevel_handle_configure (win : WindowData) (width height : Int) : Run :=
  if win.width ≠ width ∨ win.height ≠ height then
    Run.mk (WindowData.mk win.shm win.surface width height win.running) [] false
  else Run.mk win [] false

/-- The `toplevel_handle_close` handler. -/
def toplevel_handle_close (win : WindowData) : Run :=
  Run.mk (WindowData.mk win.shm win.surface win.width win.height false) [] false

/-- The `toplevel_handle_configure_bounds` handler: ignores the event. -/
def toplevel_handle_configure_bounds (win : WindowData) (_width _height : Int) : Run :=
  Run.mk win [] false

/-- The `toplevel_handle_wm_capabilities` handler: ignores the event. -/
def toplevel_handle_wm_capabilities (win : WindowData) : Run :=
  Run.mk win [] false

/-! ## Events and dispatch -/

/-- Events of the objects that exist from discovery on: the registry and the
shell coordinator. -/
inductive GlobalEvent where
  /-- A global is advertised: `registry_listener_global` runs -/
  | global (id : Nat) (interface : String) (version : Nat)
  /-- A global is withdrawn: `registry_listener_global_remove` runs -/
  | global_remove (id : Nat)
  /-- A liveness probe on proxy `xdg`: `xdg_ping` runs -/
  | ping (xdg : Handle) (serial : Nat)
  deriving DecidableEq, Repr

/-- Events delivered by `wl_display_dispatch` once the window exists.  A
base-surface configure carries the answers of the system during its handler. -/
inductive Event where
  /-- An event of the registry or of the shell coordinator -/
  | base (e : GlobalEvent)
  /-- Event `xdg_surface.configure`: `handle_configure` runs -/
  | surface_configure (xdg_surface : Handle) (serial : Nat) (os : OS)
  /-- Event `xdg_toplevel.configure`: `toplevel_handle_configure` runs -/
  | toplevel_configure (width height : Int)
  /-- Event `xdg_toplevel.close`: `toplevel_handle_close` runs -/
  | close
  /-- Event `xdg_toplevel.configure_bounds` -/
  | configure_bounds (width height : Int)
  /-- Event `xdg_toplevel.wm_capabilities` -/
  | wm_capabilities

/-- Delivery of one registry or shell-coordinator event to its listener. -/
def dispatch_global (bind : Nat → String → Nat → Handle) (datos : Datos) :
    GlobalEvent → Datos × List Action
  | GlobalEvent.global id interface version =>
      registry_listener_global bind datos id interface version
  | GlobalEvent.global_remove id => registry_listener_global_remove datos id
  | GlobalEvent.ping xdg serial => (datos, xdg_ping xdg serial)

/-- The discovery round-trip: the events are delivered in order. -/
def discover (bind : Nat → String → Nat → Handle) :
    Datos → List GlobalEvent → Datos × List Action
  | datos, [] => (datos, [])
  | datos, e :: es =>
      let r := dispatch_global bind datos e
      let rest := discover bind r.1 es
      (rest.1, r.2 ++ rest.2)

/-- The client while the dispatch loop runs: both records of `main`, every
action performed so far, and whether a handler crashed. -/
structure Client where
  datos : Datos
  win : WindowData
  trace : List Action
  crashed : Bool

/-- Delivery of one event to the listener registered for it.  Nothing runs
after a crash. -/
def dispatch_event (bind : Nat → String → Nat → Handle) (c : Client) (e : Event) : Client :=
  if c.crashed then c
  else
    match e with
    | Event.base g =>
        let r := dispatch_global bind c.datos g
        Client.mk r.1 c.win (c.trace ++ r.2) false
    | Event.surface_configure xdg_surface serial os =>
        let r := handle_configure os c.win xdg_surface serial
        Client.mk c.datos r.win (c.trace ++ r.trace) r.crashed
    | Event.toplevel_configure width height =>
        let r := toplevel_handle_configure c.win width height
        Client.mk c.datos r.win (c.trace ++ r.trace) r.crashed
    | Event.close =>
        let r := toplevel_handle_close c.win
        Client.mk c.datos r.win (c.trace ++ r.trace) r.crashed
    | Event.configure_bounds width height =>
        let r := toplevel_handle_configure_bounds c.win width height
        Client.mk c.datos r.win (c.trace ++ r.trace) r.crashed
    | Event.wm_capabilities =>
        let r := toplevel_handle_wm_capabilities c.win
        Client.mk c.datos r.win (c.trace ++ r.trace) r.crashed

/-- Delivery of a queue of events, in order. -/
def deliver (bind : Nat → String → Nat → Handle) (c : Client) (events : List Event) : Client :=
  events.foldl (dispatch_event bind) c

/-! ## Dispatch loop and teardown (`main`) -/

/-- One call of `wl_display_dispatch`: the events it delivers and the value
it returns (`-1` on failure). -/
structure Cycle where
  events : List Event
  ret : Int

/-- How the dispatch loop stands at the end of the script of cycles. -/
inductive LoopStatus where
  /-- The loop condition was false: control reached the teardown -/
  | exited
  /-- The script is used up: the next `wl_display_dispatch` is still waiting -/
  | waiting
  /-- A handler crashed -/
  | crashed
  deriving DecidableEq, Repr

/-- Result of the dispatch loop: the client, the number of calls of
`wl_display_dispatch` that were made and returned, and the status. -/
structure LoopRun where
  client : Client
  cycles : Nat
  status : LoopStatus

/-- The loop `while (wl_display_dispatch(display) != -1 && window_data.running) {}`
run against a script of cycles. -/
def event_loop (bind : Nat → String → Nat → Handle) : Client → List Cycle → LoopRun
  | c, [] => LoopRun.mk c 0 LoopStatus.waiting
  | c, cy :: rest =>
      let c1 := deliver bind c cy.events
      if c1.crashed then LoopRun.mk c1 1 LoopStatus.crashed
      else if cy.ret ≠ -1 ∧ c1.win.running = true then
        let r := event_loop bind c1 rest
        LoopRun.mk r.client (r.cycles + 1) r.status
      else LoopRun.mk c1 1 LoopStatus.exited

/-- Proxies the Wayland library returns to `main`. -/
structure Lib where
  /-- Result of `wl_display_connect(NULL)` -/
  display : Handle
  /-- Result of `wl_display_get_registry` -/
  registry : Handle
  /-- Result of `wl_registry_bind`, by global id, interface and version -/
  bind : Nat → String → Nat → Handle
  /-- Result of `wl_compositor_create_surface` -/
  surface : Handle
  /-- Result of `xdg_wm_base_get_xdg_surface` -/
  xdg_surface : Handle
  /-- Result of `xdg_surface_get_toplevel` -/
  toplevel : Handle

/-- How `main` ends. -/
inductive Exit where
  /-- Return from `main` with this exit status -/
  | returned (status : Int)
  /-- Still inside the dispatch loop when the script ends -/
  | waiting
  /-- Stopped by a crash in a handler -/
  | crashed
  deriving DecidableEq, Repr

/-- Result of `main`: every action performed, the number of completed dispatch
cycles, and how it ended. -/
structure MainRun where
  trace : List Action
  cycles : Nat
  result : Exit
  deriving DecidableEq, Repr

/-- The four actions of the teardown, in program order. -/
def teardown (lib : Lib) : List Action :=
  [Action.toplevel_destroy lib.toplevel, Action.xdg_surface_destroy lib.xdg_surface,
   Action.surface_destroy lib.surface, Action.disconnect lib.display]

/-- The actions of `main` before the round-trip is dispatched. -/
def registry_setup (lib : Lib) : List Action :=
  [Action.get_registry lib.display, Action.registry_add_listener lib.registry,
   Action.roundtrip lib.display]

/-- The actions of `main` between the check of the globals and the loop. -/
def window_setup (lib : Lib) (datos : Datos) : List Action :=
  [Action.create_surface datos.compositor,
   Action.get_xdg_surface datos.xdg lib.surface,
   Action.get_toplevel lib.xdg_surface,
   Action.xdg_surface_add_listener lib.xdg_surface,
   Action.xdg_toplevel_add_listener lib.toplevel,
   Action.set_title lib.toplevel "window-test",
   Action.set_app_id lib.toplevel "window-test",
   Action.commit lib.surface]

/-- The `WindowData` record as `main` fills it in. -/
def initial_window (lib : Lib) (datos : Datos) : WindowData :=
  WindowData.mk datos.shm lib.surface WIDTH HEIGHT true

/-- The `main` function, run against the events of the discovery round-trip
and a script of dispatch cycles. -/
def main (lib : Lib) (startup : List GlobalEvent) (script : List Cycle) : MainRun :=
  if lib.display = 0 then MainRun.mk [] 0 (Exit.returned 1)
  else
    let d := discover lib.bind (Datos.mk 0 0 0) startup
    let datos := d.1
    let t0 := registry_setup lib ++ d.2
    if datos.xdg = 0 ∨ datos.compositor = 0 ∨ datos.shm = 0 then
      MainRun.mk t0 0 (Exit.returned 1)
    else
      let t1 := t0 ++ window_setup lib datos
      let r := event_loop lib.bind (Client.mk datos (initial_window lib datos) t1 false) script
      match r.status with
      | LoopStatus.exited => MainRun.mk (r.client.trace ++ teardown lib) r.cycles (Exit.returned 0)
      | LoopStatus.waiting => MainRun.mk r.client.trace r.cycles Exit.waiting
      | LoopStatus.crashed => MainRun.mk r.client.trace r.cycles Exit.crashed

/-! ## Sample answers of the system, used to evaluate the model -/

/-- Every system call succeeds: descriptor 3, a zeroed mapping. -/
def os_ok : OS := OS.mk 3 0 true (fun _ => 0) 7 9

/-- Every system call fails: `mkstemp` returns `-1`, `mmap` returns `MAP_FAILED`. -/
def os_failing : OS := OS.mk (-1) (-1) false (fun _ => 0) 7 9

/-- True on the requests that create a surface, give it a role, create a pool
or a buffer, attach or commit. -/
def Action.isWindowRequest : Action → Bool
  | Action.create_surface _ => true
  | Action.get_xdg_surface _ _ => true
  | Action.get_toplevel _ => true
  | Action.create_pool _ _ _ => true
  | Action.pool_create_buffer _ _ _ _ _ _ => true
  | Action.attach _ _ _ _ => true
  | Action.commit _ => true
  | _ => false

/-- True on the four actions of the teardown. -/
def Action.isTeardown : Action → Bool
  | Action.toplevel_destroy _ => true
  | Action.xdg_surface_destroy _ => true
  | Action.surface_destroy _ => true
  | Action.disconnect _ => true
  | _ => false

/-- The arguments of an event are `int32_t` values. -/
def Event.wellFormed : Event → Prop
  | Event.toplevel_configure width height => isInt32 width ∧ isInt32 height
  | Event.configure_bounds width height => isInt32 width ∧ isInt32 height
  | _ => True

/-- The size proposed by the most recent top-level configure among `events`,
or `size` when there is none. -/
def size_after (size : Int × Int) : List Event → Int × Int
  | [] => size
  | Event.toplevel_configure width height :: es => size_after (width, height) es
  | _ :: es => size_after size es

/-- The specification's reference size for a buffer: the size proposed by the
most recent top-level configure delivered so far, or 300 × 200 when none was. -/
def last_toplevel_size (events : List Event) : Int × Int :=
  size_after (WIDTH, HEIGHT) events

/-- True unless the event is a base-surface configure during which `mmap` fails. -/
def Event.mapsOk : Event → Bool
  | Event.surface_configure _ _ os => os.mmap_ok
  | _ => true

/-- A library that hands out the proxies 1, 4, 6, 8, 10 and binds global `id`
to proxy `id + 10`. -/
def lib_sample : Lib := Lib.mk 1 4 (fun id _ _ => id + 10) 6 8 10

/-- A discovery round-trip in which no shared-memory allocator is advertised. -/
def startup_without_shm : List GlobalEvent :=
  [GlobalEvent.global 1 "wl_compositor" 4, GlobalEvent.global 3 "xdg_wm_base" 2,
   GlobalEvent.global 4 "wl_seat" 7]

/-- Three dispatch cycles: a resize and a configure, then a close, then one
more configure that is never dispatched. -/
def script_sample : List Cycle :=
  [Cycle.mk [Event.toplevel_configure 640 480, Event.surface_configure 8 1 os_ok] 2,
   Cycle.mk [Event.close] 1,
   Cycle.mk [Event.surface_configure 8 2 os_ok] 1]

/-! ## Machine-integer lemmas -/

theorem toInt32_of_lt (n : Nat) (h : n < 2147483648) : toInt32 n = (n : Int) := by
  unfold toInt32 UINT32_MOD
  have h1 : n % 4294967296 = n := Nat.mod_eq_of_lt (by omega)
  rw [h1]
  simp [h]

theorem toInt32_toUInt32 (x : Int) (h : isInt32 x) : toInt32 (toUInt32 x) = x := by
  unfold isInt32 at h
  unfold toInt32 toUInt32 UINT32_MOD
  obtain ⟨h1, h2⟩ := h
  push_cast
  split <;> omega

/-! ## Projections of `create_buffer` -/

theorem create_buffer_stride_eq (os : OS) (shm : Handle) (width height : Nat) :
    (create_buffer os shm width height).stride = (width * BYTES_PER_PIXEL) % UINT32_MOD := by
  unfold create_buffer
  dsimp only
  split <;> rfl

theorem create_buffer_size_eq (os : OS) (shm : Handle) (width height : Nat) :
    (create_buffer os shm width height).size
      = (((width * BYTES_PER_PIXEL) % UINT32_MOD) * height) % SIZE_MOD := by
  unfold create_buffer
  dsimp only
  split <;> rfl

theorem create_buffer_fd_eq (os : OS) (shm : Handle) (width height : Nat) :
    (create_buffer os shm width height).fd
      = (create_shm_file os ((create_buffer os shm width height).size)).1 := by
  rw [create_buffer_size_eq]
  unfold create_buffer
  dsimp only
  split <;> rfl

theorem create_buffer_crashed_iff (os : OS) (shm : Handle) (width height : Nat) :
    (create_buffer os shm width height).crashed = true
      ↔ 0 < (create_buffer os shm width height).size / 4 ∧ os.mmap_ok = false := by
  rw [create_buffer_size_eq]
  unfold create_buffer
  dsimp only
  split
  · rename_i h; simpa using h
  · rename_i h; simpa using h

theorem create_buffer_not_crashed_of_mmap (os : OS) (shm : Handle) (width height : Nat)
    (h : os.mmap_ok = true) : (create_buffer os shm width height).crashed = false := by
  cases hc : (create_buffer os shm width height).crashed
  · rfl
  · have := ((create_buffer_crashed_iff os shm width height).1 hc).2
    rw [h] at this
    cases this

theorem create_buffer_buffer_eq (os : OS) (shm : Handle) (width height : Nat)
    (h : (create_buffer os shm width height).crashed = false) :
    (create_buffer os shm width height).buffer = os.buffer := by
  unfold create_buffer at h ⊢
  dsimp only at h ⊢
  split
  · rename_i hc; rw [if_pos hc] at h; cases h
  · rfl

theorem create_buffer_pixels_eq (os : OS) (shm : Handle) (width height : Nat)
    (h : (create_buffer os shm width height).crashed = false) :
    (create_buffer os shm width height).pixels
      = fill_pixels ((create_buffer os shm width height).size / 4) 0 os.mem := by
  rw [create_buffer_size_eq]
  unfold create_buffer at h ⊢
  dsimp only at h ⊢
  split
  · rename_i hc; rw [if_pos hc] at h; cases h
  · rfl

theorem create_buffer_trace_eq (os : OS) (shm : Handle) (width height : Nat)
    (h : (create_buffer os shm width height).crashed = false) :
    (create_buffer os shm width height).trace
      = (create_shm_file os (create_buffer os shm width height).size).2 ++
        [Action.sys_mmap (create_buffer os shm width height).size
            (create_buffer os shm width height).fd,
         Action.create_pool shm (create_buffer os shm width height).fd
            (toInt32 (create_buffer os shm width height).size),
         Action.pool_create_buffer os.pool 0 (toInt32 width) (toInt32 height)
            (toInt32 (create_buffer os shm width height).stride) WL_SHM_FORMAT_ARGB8888,
         Action.pool_destroy os.pool,
         Action.sys_close (create_buffer os shm width height).fd,
         Action.sys_munmap (create_buffer os shm width height).size] := by
  rw [create_buffer_fd_eq, create_buffer_size_eq, create_buffer_stride_eq]
  unfold create_buffer at h ⊢
  dsimp only at h ⊢
  split
  · rename_i hc; rw [if_pos hc] at h; cases h
  · simp

theorem create_buffer_trace_prefix (os : OS) (shm : Handle) (width height : Nat) :
    (create_shm_file os (create_buffer os shm width height).size).2 ++
        [Action.sys_mmap (create_buffer os shm width height).size
            (create_buffer os shm width height).fd]
      <+: (create_buffer os shm width height).trace := by
  rw [create_buffer_fd_eq, create_buffer_size_eq]
  unfold create_buffer
  dsimp only
  split
  · exact List.prefix_refl _
  · exact List.prefix_append _ _

/-- The fill loop writes `BLACK` at the `n` indices from `i` on and nowhere else. -/
theorem fill_pixels_apply (n : Nat) : ∀ (i : Nat) (pixels : Nat → Nat) (j : Nat),
    fill_pixels n i pixels j = if i ≤ j ∧ j < i + n then BLACK else pixels j := by
  induction n with
  | zero =>
    intro i pixels j
    have : ¬ (i ≤ j ∧ j < i + 0) := by omega
    rw [fill_pixels, if_neg this]
  | succ n ih =>
    intro i pixels j
    rw [fill_pixels, ih]
    by_cases h1 : i + 1 ≤ j ∧ j < i + 1 + n
    · have h2 : i ≤ j ∧ j < i + (n + 1) := by omega
      rw [if_pos h1, if_pos h2]
    · rw [if_neg h1]
      by_cases h3 : j = i
      · have h2 : i ≤ j ∧ j < i + (n + 1) := by omega
        rw [if_pos h3, if_pos h2]
      · have h2 : ¬ (i ≤ j ∧ j < i + (n + 1)) := by omega
        rw [if_neg h3, if_neg h2]

theorem no_wrap_stride (width : Nat) (hw : width < 1073741824) :
    (width * BYTES_PER_PIXEL) % UINT32_MOD = width * 4 := by
  unfold BYTES_PER_PIXEL UINT32_MOD
  exact Nat.mod_eq_of_lt (by omega)

theorem no_wrap_size (width height : Nat) (hw : width < 1073741824) (hh : height < 4294967296) :
    (((width * BYTES_PER_PIXEL) % UINT32_MOD) * height) % SIZE_MOD = width * 4 * height := by
  rw [no_wrap_stride width hw]
  unfold SIZE_MOD
  apply Nat.mod_eq_of_lt
  have h1 : width * 4 ≤ 4294967295 := by omega
  have h2 : height ≤ 4294967295 := by omega
  calc width * 4 * height ≤ 4294967295 * 4294967295 := Nat.mul_le_mul h1 h2
    _ < 18446744073709551616 := by norm_num

/-! ## Buffer factory: stride, size and fill -/

/-- C3 (as stated, refuted): the stride is not `width × 4` for every 32-bit
width.  At width 2^30 and height 1 the 32-bit product wraps: the stride is 0
and so is the size. -/
theorem create_buffer_stride_wraps :
    ¬ (∀ (os : OS) (shm : Handle) (width height : Nat),
        width < 4294967296 → height < 4294967296 →
        (create_buffer os shm width height).stride = width * 4 ∧
        (create_buffer os shm width height).size
          = (create_buffer os shm width height).stride * height) := by
  intro H
  have h := (H os_ok 1 1073741824 1 (by decide) (by decide)).1
  rw [create_buffer_stride_eq] at h
  revert h
  decide

/-- C3 (amended): for every width below 2^30 and every 32-bit height the stride
is `width × 4` and the size is `stride × height`, exactly; the backing file and
the mapping are created with that size; and when the run completes and width,
height, stride and size all fit a signed 32-bit integer, the pool is created
with that size and the buffer with that width, height and stride. -/
theorem create_buffer_stride_size (os : OS) (shm : Handle) (width height : Nat)
    (hw : width < 1073741824) (hh : height < 4294967296) :
    (create_buffer os shm width height).stride = width * 4 ∧
    (create_buffer os shm width height).size
      = (create_buffer os shm width height).stride * height ∧
    (create_buffer os shm width height).fd
      = (create_shm_file os (width * 4 * height)).1 ∧
    ((create_shm_file os (width * 4 * height)).2 ++
        [Action.sys_mmap (width * 4 * height) (create_buffer os shm width height).fd]
      <+: (create_buffer os shm width height).trace) ∧
    ((create_buffer os shm width height).crashed = false →
      width < 536870912 → height < 2147483648 → width * 4 * height < 2147483648 →
      (create_buffer os shm width height).trace
        = (create_shm_file os (width * 4 * height)).2 ++
          [Action.sys_mmap (width * 4 * height) (create_buffer os shm width height).fd,
           Action.create_pool shm (create_buffer os shm width height).fd
              ((width * 4 * height : Nat) : Int),
           Action.pool_create_buffer os.pool 0 (width : Int) (height : Int)
              ((width * 4 : Nat) : Int) WL_SHM_FORMAT_ARGB8888,
           Action.pool_destroy os.pool,
           Action.sys_close (create_buffer os shm width height).fd,
           Action.sys_munmap (width * 4 * height)]) := by
  have hs : (create_buffer os shm width height).stride = width * 4 := by
    rw [create_buffer_stride_eq, no_wrap_stride width hw]
  have hz : (create_buffer os shm width height).size = width * 4 * height := by
    rw [create_buffer_size_eq, no_wrap_size width height hw hh]
  refine ⟨hs, ?_, ?_, ?_, ?_⟩
  · rw [hz, hs]
  · rw [create_buffer_fd_eq, hz]
  · have h := create_buffer_trace_prefix os shm width height
    rw [hz] at h
    exact h
  · intro hc hw2 hh2 hz2
    have h := create_buffer_trace_eq os shm width height hc
    rw [hz, hs] at h
    rw [h, toInt32_of_lt _ hz2, toInt32_of_lt width (by omega), toInt32_of_lt height hh2,
      toInt32_of_lt (width * 4) (by omega)]

/-- Scenario B geometry, an instance of C3: 640 × 480 gives stride 2560 and
size 1228800, passed as such to the pool and the buffer. -/
theorem create_buffer_stride_size_witness :
    (create_buffer os_ok 1 640 480).stride = 640 * 4 ∧
    (create_buffer os_ok 1 640 480).size = (create_buffer os_ok 1 640 480).stride * 480 ∧
    (create_buffer os_ok 1 640 480).fd = (create_shm_file os_ok (640 * 4 * 480)).1 ∧
    ((create_shm_file os_ok (640 * 4 * 480)).2 ++
        [Action.sys_mmap (640 * 4 * 480) (create_buffer os_ok 1 640 480).fd]
      <+: (create_buffer os_ok 1 640 480).trace) ∧
    ((create_buffer os_ok 1 640 480).crashed = false →
      640 < 536870912 → 480 < 2147483648 → 640 * 4 * 480 < 2147483648 →
      (create_buffer os_ok 1 640 480).trace
        = (create_shm_file os_ok (640 * 4 * 480)).2 ++
          [Action.sys_mmap (640 * 4 * 480) (create_buffer os_ok 1 640 480).fd,
           Action.create_pool 1 (create_buffer os_ok 1 640 480).fd
              ((640 * 4 * 480 : Nat) : Int),
           Action.pool_create_buffer os_ok.pool 0 ((640 : Nat) : Int) ((480 : Nat) : Int)
              ((640 * 4 : Nat) : Int) WL_SHM_FORMAT_ARGB8888,
           Action.pool_destroy os_ok.pool,
           Action.sys_close (create_buffer os_ok 1 640 480).fd,
           Action.sys_munmap (640 * 4 * 480)]) :=
  create_buffer_stride_size os_ok 1 640 480 (by decide) (by decide)

/-- C4 (as stated, refuted): it is not true for every width and height that the
`width × height` first pixels are written.  At width 2^30 + 1 and height 1 the
stride wraps to 4, the size is 4, the loop runs once and pixel 1 keeps its old
value. -/
theorem create_buffer_fill_misses_pixels :
    ¬ (∀ (os : OS) (shm : Handle) (width height : Nat),
        width < 4294967296 → height < 4294967296 → os.mmap_ok = true →
        (create_buffer os shm width height).size / 4 = width * height ∧
        ∀ i, i < width * height → (create_buffer os shm width height).pixels i = BLACK) := by
  intro H
  have h := (H os_ok 1 1073741825 1 (by decide) (by decide) rfl).2 1 (by decide)
  rw [create_buffer_pixels_eq os_ok 1 1073741825 1
    (create_buffer_not_crashed_of_mmap os_ok 1 1073741825 1 rfl), create_buffer_size_eq] at h
  revert h
  decide

/-- C4 (amended): when the mapping succeeds, `create_buffer` stores
`0xFF000000` in each of the `size / 4` pixels of index `0 .. size/4 - 1` and
leaves every other word as it was; for a width below 2^30 these are exactly
`width × height` pixels; and 300 × 200 gives stride 1200, size 240000 and
60000 black pixels. -/
theorem create_buffer_fills_black (os : OS) (shm : Handle) (width height : Nat)
    (hmap : os.mmap_ok = true) (hh : height < 4294967296) :
    (create_buffer os shm width height).crashed = false ∧
    (∀ i, i < (create_buffer os shm width height).size / 4 →
      (create_buffer os shm width height).pixels i = BLACK) ∧
    (∀ i, (create_buffer os shm width height).size / 4 ≤ i →
      (create_buffer os shm width height).pixels i = os.mem i) ∧
    (width < 1073741824 → (create_buffer os shm width height).size / 4 = width * height) ∧
    ((create_buffer os shm 300 200).stride = 1200 ∧
      (create_buffer os shm 300 200).size = 240000 ∧
      ∀ i, i < 60000 → (create_buffer os shm 300 200).pixels i = BLACK) := by
  have key : ∀ w h : Nat, ∀ i,
      (create_buffer os shm w h).pixels i
        = if i < (create_buffer os shm w h).size / 4 then BLACK else os.mem i := by
    intro w h i
    rw [create_buffer_pixels_eq os shm w h (create_buffer_not_crashed_of_mmap os shm w h hmap),
      fill_pixels_apply]
    by_cases hi : i < (create_buffer os shm w h).size / 4
    · rw [if_pos hi, if_pos ⟨Nat.zero_le _, by omega⟩]
    · rw [if_neg hi, if_neg (by omega)]
  refine ⟨create_buffer_not_crashed_of_mmap os shm width height hmap, ?_, ?_, ?_, ?_, ?_, ?_⟩
  · intro i hi
    rw [key, if_pos hi]
  · intro i hi
    rw [key, if_neg (by omega)]
  · intro hw
    rw [create_buffer_size_eq, no_wrap_size width height hw hh]
    have : width * 4 * height = 4 * (width * height) := by ring
    rw [this]
    exact Nat.mul_div_cancel_left _ (by decide)
  · rw [create_buffer_stride_eq, no_wrap_stride 300 (by decide)]
  · rw [create_buffer_size_eq, no_wrap_size 300 200 (by decide) (by decide)]
  · intro i hi
    have hz : (create_buffer os shm 300 200).size = 240000 := by
      rw [create_buffer_size_eq, no_wrap_size 300 200 (by decide) (by decide)]
    rw [key, if_pos (by rw [hz]; omega)]

/-- Scenario A, an instance of C4 on a zeroed mapping. -/
theorem create_buffer_fills_black_witness :
    (create_buffer os_ok 1 300 200).crashed = false ∧
    (∀ i, i < (create_buffer os_ok 1 300 200).size / 4 →
      (create_buffer os_ok 1 300 200).pixels i = BLACK) ∧
    (∀ i, (create_buffer os_ok 1 300 200).size / 4 ≤ i →
      (create_buffer os_ok 1 300 200).pixels i = os_ok.mem i) ∧
    (300 < 1073741824 → (create_buffer os_ok 1 300 200).size / 4 = 300 * 200) ∧
    ((create_buffer os_ok 1 300 200).stride = 1200 ∧
      (create_buffer os_ok 1 300 200).size = 240000 ∧
      ∀ i, i < 60000 → (create_buffer os_ok 1 300 200).pixels i = BLACK) :=
  create_buffer_fills_black os_ok 1 300 200 rfl (by decide)

/-! ## Surface handshake -/

theorem create_shm_file_window_free (os : OS) (size : Nat) :
    (create_shm_file os size).2.countP Action.isWindowRequest = 0 := by
  unfold create_shm_file
  dsimp only
  split
  · decide
  · split <;> simp [List.countP_cons, Action.isWindowRequest]

theorem handle_configure_crashed_eq (os : OS) (win : WindowData) (xdg_surface : Handle)
    (serial : Nat) :
    (handle_configure os win xdg_surface serial).crashed
      = (create_buffer os win.shm (toUInt32 win.width) (toUInt32 win.height)).crashed := by
  unfold handle_configure
  dsimp only
  split
  · rename_i h; rw [h]
  · rename_i h; simp at h; rw [h]

theorem handle_configure_win_eq (os : OS) (win : WindowData) (xdg_surface : Handle)
    (serial : Nat) : (handle_configure os win xdg_surface serial).win = win := by
  unfold handle_configure
  dsimp only
  split <;> rfl

theorem handle_configure_trace_eq (os : OS) (win : WindowData) (xdg_surface : Handle)
    (serial : Nat) (h : (handle_configure os win xdg_surface serial).crashed = false) :
    (handle_configure os win xdg_surface serial).trace
      = Action.ack_configure xdg_surface serial ::
          (create_buffer os win.shm (toUInt32 win.width) (toUInt32 win.height)).trace ++
          [Action.attach win.surface os.buffer 0 0, Action.commit win.surface] := by
  rw [handle_configure_crashed_eq] at h
  unfold handle_configure
  dsimp only
  rw [if_neg (by rw [h]; simp), create_buffer_buffer_eq _ _ _ _ h]

theorem toplevel_handle_configure_win_eq (win : WindowData) (width height : Int) :
    (toplevel_handle_configure win width height).win
      = WindowData.mk win.shm win.surface width height win.running := by
  unfold toplevel_handle_configure
  by_cases h : win.width ≠ width ∨ win.height ≠ height
  · rw [if_pos h]
  · rw [if_neg h]
    have h1 : win.width = width := by
      by_contra hne; exact h (Or.inl hne)
    have h2 : win.height = height := by
      by_contra hne; exact h (Or.inr hne)
    rw [← h1, ← h2]

theorem toplevel_handle_configure_quiet (win : WindowData) (width height : Int) :
    (toplevel_handle_configure win width height).trace = [] ∧
    (toplevel_handle_configure win width height).crashed = false := by
  unfold toplevel_handle_configure
  split <;> exact ⟨rfl, rfl⟩

/-- C5: for every WindowState and every proposed width and height,
`toplevel_handle_configure` leaves width and height equal to the proposed
ones, leaves the running flag, the surface and the shared-memory handle
unchanged, and performs no action at all. -/
theorem toplevel_handle_configure_frame (win : WindowData) (width height : Int) :
    (toplevel_handle_configure win width height).win
      = WindowData.mk win.shm win.surface width height win.running ∧
    (toplevel_handle_configure win width height).trace = [] ∧
    (toplevel_handle_configure win width height).crashed = false :=
  ⟨toplevel_handle_configure_win_eq win width height,
    (toplevel_handle_configure_quiet win width height).1,
    (toplevel_handle_configure_quiet win width height).2⟩

theorem dispatch_event_keeps_closed (bind : Nat → String → Nat → Handle) (c : Client)
    (e : Event) (h : c.win.running = false) :
    (dispatch_event bind c e).win.running = false := by
  unfold dispatch_event
  by_cases hc : c.crashed = true
  · rw [if_pos hc]; exact h
  · rw [if_neg hc]
    cases e with
    | base g => exact h
    | surface_configure xs serial os =>
      show (handle_configure os c.win xs serial).win.running = false
      rw [handle_configure_win_eq]; exact h
    | toplevel_configure width height =>
      show (toplevel_handle_configure c.win width height).win.running = false
      rw [toplevel_handle_configure_win_eq]; exact h
    | close => rfl
    | configure_bounds width height => exact h
    | wm_capabilities => exact h

theorem deliver_keeps_closed (bind : Nat → String → Nat → Handle) (events : List Event) :
    ∀ c : Client, c.win.running = false → (deliver bind c events).win.running = false := by
  induction events with
  | nil => intro c h; exact h
  | cons e es ih =>
    intro c h
    exact ih (dispatch_event bind c e) (dispatch_event_keeps_closed bind c e h)

/-- C6: for every WindowState, `toplevel_handle_close` sets the running flag to
false, leaves the shared-memory handle, the surface, the width and the height
unchanged and performs no action; and the closed state is terminal: after a
close, whatever events are delivered next (registry events, ping, base-surface
configure, top-level configure, close, bounds, capabilities), the running flag
is still false. -/
theorem close_is_terminal (bind : Nat → String → Nat → Handle) (datos : Datos)
    (win : WindowData) (trace : List Action) (events : List Event) :
    (toplevel_handle_close win).win
      = WindowData.mk win.shm win.surface win.width win.height false ∧
    (toplevel_handle_close win).trace = [] ∧
    (toplevel_handle_close win).crashed = false ∧
    (dispatch_event bind (Client.mk datos win trace false) Event.close).trace = trace ∧
    (deliver bind (dispatch_event bind (Client.mk datos win trace false) Event.close)
      events).win.running = false :=
  ⟨rfl, rfl, rfl, by simp [dispatch_event, toplevel_handle_close],
    deliver_keeps_closed bind events _ rfl⟩

/-! ## Registry binder -/

/-- C9: for every ResourceSet and every advertised global,
`registry_listener_global` binds the global into the shell-coordinator field
exactly when the interface is "xdg_wm_base" (and then registers the ping
listener on the new proxy, right after the bind), into the compositor field
exactly when it is "wl_compositor", into the shared-memory field exactly when
it is "wl_shm", leaving the other two fields unchanged; for any other
interface it performs no action and leaves the ResourceSet unchanged. -/
theorem registry_listener_global_binds (bind : Nat → String → Nat → Handle) (datos : Datos)
    (id : Nat) (interface : String) (version : Nat) :
    registry_listener_global bind datos id interface version =
      if interface = "xdg_wm_base" then
        (Datos.mk (bind id "xdg_wm_base" version) datos.compositor datos.shm,
          [Action.registry_bind id "xdg_wm_base" version,
           Action.xdg_wm_base_add_listener (bind id "xdg_wm_base" version)])
      else if interface = "wl_compositor" then
        (Datos.mk datos.xdg (bind id "wl_compositor" version) datos.shm,
          [Action.registry_bind id "wl_compositor" version])
      else if interface = "wl_shm" then
        (Datos.mk datos.xdg datos.compositor (bind id "wl_shm" version),
          [Action.registry_bind id "wl_shm" version])
      else (datos, []) := by
  unfold registry_listener_global
  by_cases h1 : interface = "xdg_wm_base"
  · subst h1
    simp
  · by_cases h2 : interface = "wl_compositor"
    · subst h2
      simp
    · by_cases h3 : interface = "wl_shm"
      · subst h3
        simp
      · simp [h1, h2, h3]

/-! ## Allocation failures -/

/-- C10 (the code evaluated where system calls fail): with a 0 × 0 window,
`mkstemp` failing and `mmap` failing, `create_shm_file` returns `-1` and
`handle_configure` still creates a pool from descriptor `-1`, attaches and
commits; with only `ftruncate` failing it does the same; with the 300 × 200
window and `mmap` failing the fill loop stores through the invalid pointer. -/
theorem handle_configure_ignores_failure :
    create_shm_file os_failing 0 = (-1, [Action.sys_mkstemp]) ∧
    (handle_configure os_failing (WindowData.mk 5 6 0 0 true) 8 42).crashed = false ∧
    (handle_configure os_failing (WindowData.mk 5 6 0 0 true) 8 42).trace
      = [Action.ack_configure 8 42, Action.sys_mkstemp, Action.sys_mmap 0 (-1),
         Action.create_pool 5 (-1) 0, Action.pool_create_buffer 7 0 0 0 0 0,
         Action.pool_destroy 7, Action.sys_close (-1), Action.sys_munmap 0,
         Action.attach 6 9 0 0, Action.commit 6] ∧
    (handle_configure (OS.mk 3 (-1) false (fun _ => 0) 7 9)
        (WindowData.mk 5 6 0 0 true) 8 42).trace
      = [Action.ack_configure 8 42, Action.sys_mkstemp, Action.sys_unlink,
         Action.sys_ftruncate 3 0, Action.sys_close 3, Action.sys_mmap 0 (-1),
         Action.create_pool 5 (-1) 0, Action.pool_create_buffer 7 0 0 0 0 0,
         Action.pool_destroy 7, Action.sys_close (-1), Action.sys_munmap 0,
         Action.attach 6 9 0 0, Action.commit 6] ∧
    (handle_configure os_failing (WindowData.mk 5 6 300 200 true) 8 42).crashed = true := by
  decide

/-! ## Sequences of events -/

theorem dispatch_event_of_crashed (bind : Nat → String → Nat → Handle) (c : Client)
    (e : Event) (h : c.crashed = true) : dispatch_event bind c e = c := by
  unfold dispatch_event
  rw [if_pos h]

theorem deliver_of_crashed (bind : Nat → String → Nat → Handle) (events : List Event) :
    ∀ c : Client, c.crashed = true → deliver bind c events = c := by
  induction events with
  | nil => intro c _; rfl
  | cons e es ih =>
    intro c h
    show deliver bind (dispatch_event bind c e) es = c
    rw [dispatch_event_of_crashed bind c e h]
    exact ih c h

theorem deliver_cons (bind : Nat → String → Nat → Handle) (c : Client) (e : Event)
    (es : List Event) :
    deliver bind c (e :: es) = deliver bind (dispatch_event bind c e) es := rfl

theorem deliver_append (bind : Nat → String → Nat → Handle) (c : Client)
    (es fs : List Event) :
    deliver bind c (es ++ fs) = deliver bind (deliver bind c es) fs := by
  unfold deliver
  rw [List.foldl_append]

/-- A run that ends without a crash had no crash at any earlier point. -/
theorem not_crashed_of_deliver (bind : Nat → String → Nat → Handle) (c : Client)
    (events : List Event) (h : (deliver bind c events).crashed = false) :
    c.crashed = false := by
  cases hc : c.crashed
  · rfl
  · rw [deliver_of_crashed bind events c hc] at h
    rw [h] at hc
    cases hc

/-- One event moves the size of the window as `size_after` says, and keeps the
two handles of the window. -/
theorem dispatch_event_size (bind : Nat → String → Nat → Handle) (c : Client) (e : Event)
    (h : c.crashed = false) (es : List Event) :
    size_after ((dispatch_event bind c e).win.width, (dispatch_event bind c e).win.height) es
      = size_after (c.win.width, c.win.height) (e :: es) ∧
    (dispatch_event bind c e).win.shm = c.win.shm ∧
    (dispatch_event bind c e).win.surface = c.win.surface := by
  unfold dispatch_event
  rw [if_neg (by rw [h]; simp)]
  cases e with
  | base g => exact ⟨rfl, rfl, rfl⟩
  | surface_configure xs serial os =>
    show size_after ((handle_configure os c.win xs serial).win.width,
        (handle_configure os c.win xs serial).win.height) es = _ ∧
      (handle_configure os c.win xs serial).win.shm = _ ∧
      (handle_configure os c.win xs serial).win.surface = _
    rw [handle_configure_win_eq]
    exact ⟨rfl, rfl, rfl⟩
  | toplevel_configure width height =>
    show size_after ((toplevel_handle_configure c.win width height).win.width,
        (toplevel_handle_configure c.win width height).win.height) es = _ ∧
      (toplevel_handle_configure c.win width height).win.shm = _ ∧
      (toplevel_handle_configure c.win width height).win.surface = _
    rw [toplevel_handle_configure_win_eq]
    exact ⟨rfl, rfl, rfl⟩
  | close => exact ⟨rfl, rfl, rfl⟩
  | configure_bounds width height => exact ⟨rfl, rfl, rfl⟩
  | wm_capabilities => exact ⟨rfl, rfl, rfl⟩

/-- After a run without crash the window has the size of the most recent
top-level configure, and its two handles are those it started with. -/
theorem deliver_size (bind : Nat → String → Nat → Handle) (events : List Event) :
    ∀ c : Client, (deliver bind c events).crashed = false →
      ((deliver bind c events).win.width, (deliver bind c events).win.height)
        = size_after (c.win.width, c.win.height) events ∧
      (deliver bind c events).win.shm = c.win.shm ∧
      (deliver bind c events).win.surface = c.win.surface := by
  induction events with
  | nil => intro c _; exact ⟨rfl, rfl, rfl⟩
  | cons e es ih =>
    intro c h
    rw [deliver_cons] at h ⊢
    have h1 := not_crashed_of_deliver bind _ es h
    have h0 : c.crashed = false := by
      cases hc : c.crashed
      · rfl
      · rw [dispatch_event_of_crashed bind c e hc] at h1
        rw [h1] at hc
        cases hc
    obtain ⟨i1, i2, i3⟩ := ih (dispatch_event bind c e) h
    obtain ⟨s1, s2, s3⟩ := dispatch_event_size bind c e h0 es
    exact ⟨i1.trans s1, i2.trans s2, i3.trans s3⟩

theorem size_after_isInt32 (events : List Event) :
    ∀ size : Int × Int, (∀ e ∈ events, e.wellFormed) → isInt32 size.1 → isInt32 size.2 →
      isInt32 (size_after size events).1 ∧ isInt32 (size_after size events).2 := by
  induction events with
  | nil => intro size _ h1 h2; exact ⟨h1, h2⟩
  | cons e es ih =>
    intro size hwf h1 h2
    have hes : ∀ x ∈ es, x.wellFormed := fun x hx => hwf x (List.mem_cons_of_mem _ hx)
    have he : e.wellFormed := hwf e (List.mem_cons_self _ _)
    cases e with
    | toplevel_configure width height => exact ih (width, height) hes he.1 he.2
    | base g => exact ih size hes h1 h2
    | surface_configure xs serial os => exact ih size hes h1 h2
    | close => exact ih size hes h1 h2
    | configure_bounds width height => exact ih size hes h1 h2
    | wm_capabilities => exact ih size hes h1 h2

/-- The trace of a base-surface configure delivered after `events`. -/
theorem deliver_then_configure (bind : Nat → String → Nat → Handle) (c : Client)
    (events : List Event) (xs : Handle) (serial : Nat) (os : OS)
    (h : (deliver bind c events).crashed = false) :
    deliver bind c (events ++ [Event.surface_configure xs serial os])
      = Client.mk (deliver bind c events).datos
          (handle_configure os (deliver bind c events).win xs serial).win
          ((deliver bind c events).trace ++
            (handle_configure os (deliver bind c events).win xs serial).trace)
          (handle_configure os (deliver bind c events).win xs serial).crashed := by
  rw [deliver_append]
  show dispatch_event bind (deliver bind c events) (Event.surface_configure xs serial os) = _
  unfold dispatch_event
  rw [if_neg (by rw [h]; simp)]

theorem dispatch_event_not_crashed (bind : Nat → String → Nat → Handle) (c : Client)
    (e : Event) (h : c.crashed = false) (hm : e.mapsOk = true) :
    (dispatch_event bind c e).crashed = false := by
  unfold dispatch_event
  rw [if_neg (by rw [h]; simp)]
  cases e with
  | base g => rfl
  | surface_configure xs serial os =>
    show (handle_configure os c.win xs serial).crashed = false
    rw [handle_configure_crashed_eq]
    exact create_buffer_not_crashed_of_mmap _ _ _ _ hm
  | toplevel_configure width height =>
    exact (toplevel_handle_configure_quiet c.win width height).2
  | close => rfl
  | configure_bounds width height => rfl
  | wm_capabilities => rfl

theorem deliver_not_crashed (bind : Nat → String → Nat → Handle) (events : List Event) :
    ∀ c : Client, c.crashed = false → (∀ e ∈ events, e.mapsOk = true) →
      (deliver bind c events).crashed = false := by
  induction events with
  | nil => intro c h _; exact h
  | cons e es ih =>
    intro c h hm
    rw [deliver_cons]
    exact ih _ (dispatch_event_not_crashed bind c e h (hm e (List.mem_cons_self _ _)))
      (fun x hx => hm x (List.mem_cons_of_mem _ hx))

/-- The buffer a base-surface configure attaches after `events`, from the
client `main` starts the loop with. -/
theorem configure_after_events (lib : Lib) (datos : Datos) (t : List Action)
    (events : List Event) (xs : Handle) (serial : Nat) (os : OS)
    (hwf : ∀ e ∈ events, e.wellFormed)
    (h : (deliver lib.bind (Client.mk datos (initial_window lib datos) t false)
        (events ++ [Event.surface_configure xs serial os])).crashed = false) :
    (deliver lib.bind (Client.mk datos (initial_window lib datos) t false)
        (events ++ [Event.surface_configure xs serial os])).trace
      = (deliver lib.bind (Client.mk datos (initial_window lib datos) t false) events).trace ++
        ([Action.ack_configure xs serial] ++
          (create_buffer os datos.shm (toUInt32 (last_toplevel_size events).1)
            (toUInt32 (last_toplevel_size events).2)).trace ++
          [Action.attach lib.surface os.buffer 0 0, Action.commit lib.surface]) ∧
    (create_buffer os datos.shm (toUInt32 (last_toplevel_size events).1)
        (toUInt32 (last_toplevel_size events).2)).trace
      = (create_shm_file os (create_buffer os datos.shm
            (toUInt32 (last_toplevel_size events).1)
            (toUInt32 (last_toplevel_size events).2)).size).2 ++
        [Action.sys_mmap
            (create_buffer os datos.shm (toUInt32 (last_toplevel_size events).1)
              (toUInt32 (last_toplevel_size events).2)).size
            (create_buffer os datos.shm (toUInt32 (last_toplevel_size events).1)
              (toUInt32 (last_toplevel_size events).2)).fd,
         Action.create_pool datos.shm
            (create_buffer os datos.shm (toUInt32 (last_toplevel_size events).1)
              (toUInt32 (last_toplevel_size events).2)).fd
            (toInt32 (create_buffer os datos.shm (toUInt32 (last_toplevel_size events).1)
              (toUInt32 (last_toplevel_size events).2)).size),
         Action.pool_create_buffer os.pool 0 (last_toplevel_size events).1
            (last_toplevel_size events).2
            (toInt32 (create_buffer os datos.shm (toUInt32 (last_toplevel_size events).1)
              (toUInt32 (last_toplevel_size events).2)).stride) WL_SHM_FORMAT_ARGB8888,
         Action.pool_destroy os.pool,
         Action.sys_close
            (create_buffer os datos.shm (toUInt32 (last_toplevel_size events).1)
              (toUInt32 (last_toplevel_size events).2)).fd,
         Action.sys_munmap
            (create_buffer os datos.shm (toUInt32 (last_toplevel_size events).1)
              (toUInt32 (last_toplevel_size events).2)).size] := by
  have hsplit := deliver_append lib.bind (Client.mk datos (initial_window lib datos) t false)
    events [Event.surface_configure xs serial os]
  have hpre : (deliver lib.bind (Client.mk datos (initial_window lib datos) t false)
      events).crashed = false := by
    rw [hsplit] at h
    exact not_crashed_of_deliver lib.bind _ _ h
  obtain ⟨hsz, hshm, hsurf⟩ :=
    deliver_size lib.bind events (Client.mk datos (initial_window lib datos) t false) hpre
  have hsz1 : (deliver lib.bind (Client.mk datos (initial_window lib datos) t false)
      events).win.width = (last_toplevel_size events).1 := congrArg Prod.fst hsz
  have hsz2 : (deliver lib.bind (Client.mk datos (initial_window lib datos) t false)
      events).win.height = (last_toplevel_size events).2 := congrArg Prod.snd hsz
  have hint : isInt32 (last_toplevel_size events).1 ∧ isInt32 (last_toplevel_size events).2 :=
    size_after_isInt32 events (WIDTH, HEIGHT) hwf (by decide) (by decide)
  have hstep := deliver_then_configure lib.bind
    (Client.mk datos (initial_window lib datos) t false) events xs serial os hpre
  have hc : (handle_configure os (deliver lib.bind
      (Client.mk datos (initial_window lib datos) t false) events).win xs serial).crashed
      = false := by
    rw [hstep] at h
    exact h
  have hb := hc
  rw [handle_configure_crashed_eq, hsz1, hsz2, hshm] at hb
  have hb2 : (create_buffer os datos.shm (toUInt32 (last_toplevel_size events).1)
      (toUInt32 (last_toplevel_size events).2)).crashed = false := hb
  constructor
  · rw [hstep]
    show _ ++ (handle_configure os _ xs serial).trace = _
    rw [handle_configure_trace_eq _ _ _ _ hc, hsz1, hsz2, hshm, hsurf]
    rfl
  · have ht := create_buffer_trace_eq os datos.shm (toUInt32 (last_toplevel_size events).1)
      (toUInt32 (last_toplevel_size events).2) hb2
    rw [toInt32_toUInt32 _ hint.1, toInt32_toUInt32 _ hint.2] at ht
    exact ht

/-- Scenario B: a top-level configure proposing 640 × 480 before the first
base-surface configure. -/
theorem resize_before_first_configure (lib : Lib) (datos : Datos) (t : List Action)
    (xs : Handle) (serial : Nat) (os : OS) (hmap : os.mmap_ok = true) :
    (deliver lib.bind (Client.mk datos (initial_window lib datos) t false)
        [Event.toplevel_configure 640 480, Event.surface_configure xs serial os]).trace
      = t ++ ([Action.ack_configure xs serial] ++
          ((create_shm_file os 1228800).2 ++
            [Action.sys_mmap 1228800 (create_shm_file os 1228800).1,
             Action.create_pool datos.shm (create_shm_file os 1228800).1 1228800,
             Action.pool_create_buffer os.pool 0 640 480 2560 WL_SHM_FORMAT_ARGB8888,
             Action.pool_destroy os.pool,
             Action.sys_close (create_shm_file os 1228800).1,
             Action.sys_munmap 1228800]) ++
          [Action.attach lib.surface os.buffer 0 0, Action.commit lib.surface]) := by
  have hwf : ∀ e ∈ [Event.toplevel_configure 640 480], e.wellFormed := by
    intro e he
    rw [List.mem_singleton] at he
    subst he
    exact ⟨by decide, by decide⟩
  have hm : ∀ e ∈ [Event.toplevel_configure 640 480] ++ [Event.surface_configure xs serial os],
      e.mapsOk = true := by
    intro e he
    simp only [List.mem_append, List.mem_singleton] at he
    rcases he with he | he
    · subst he; rfl
    · subst he; exact hmap
  have hc := deliver_not_crashed lib.bind _
    (Client.mk datos (initial_window lib datos) t false) rfl hm
  obtain ⟨h1, h2⟩ := configure_after_events lib datos t [Event.toplevel_configure 640 480]
    xs serial os hwf hc
  have hl : last_toplevel_size [Event.toplevel_configure 640 480] = (640, 480) := rfl
  have hu1 : toUInt32 640 = 640 := by decide
  have hu2 : toUInt32 480 = 480 := by decide
  have hsz : (create_buffer os datos.shm 640 480).size = 1228800 := by
    rw [create_buffer_size_eq, no_wrap_size 640 480 (by decide) (by decide)]
  have hst : (create_buffer os datos.shm 640 480).stride = 2560 := by
    rw [create_buffer_stride_eq, no_wrap_stride 640 (by decide)]
  have hfd : (create_buffer os datos.shm 640 480).fd = (create_shm_file os 1228800).1 := by
    rw [create_buffer_fd_eq, hsz]
  have ht0 : (deliver lib.bind (Client.mk datos (initial_window lib datos) t false)
      [Event.toplevel_configure 640 480]).trace = t := by
    show (dispatch_event lib.bind (Client.mk datos (initial_window lib datos) t false)
      (Event.toplevel_configure 640 480)).trace = t
    unfold dispatch_event
    rw [if_neg (by simp)]
    show t ++ (toplevel_handle_configure _ 640 480).trace = t
    rw [(toplevel_handle_configure_quiet _ 640 480).1, List.append_nil]
  rw [hl] at h1 h2
  simp only [hu1, hu2, hsz, hst, hfd] at h1 h2
  have e1 : toInt32 1228800 = 1228800 := by decide
  have e2 : toInt32 2560 = 2560 := by decide
  rw [e1, e2] at h2
  have happ : [Event.toplevel_configure 640 480, Event.surface_configure xs serial os]
      = [Event.toplevel_configure 640 480] ++ [Event.surface_configure xs serial os] := rfl
  rw [happ, h1, h2, ht0]

/-- C2: from the client `main` enters the loop with (300 × 200), for every
sequence of events with `int32_t` arguments followed by a base-surface
configure: the run completes whenever every mapping succeeds, and when it
completes the configure acknowledges, creates a buffer whose width and height
are those of the most recent top-level configure delivered before it (300 × 200
when there was none), and attaches and commits that buffer.  A top-level
configure proposing 640 × 480 before the first base-surface configure gives a
first buffer of 640 × 480 with stride 2560 and size 1228800. -/
theorem attached_buffer_matches_last_configure (lib : Lib) (datos : Datos) (t : List Action)
    (events : List Event) (xs : Handle) (serial : Nat) (os : OS)
    (hwf : ∀ e ∈ events, e.wellFormed) :
    ((∀ e ∈ events, e.mapsOk = true) → os.mmap_ok = true →
      (deliver lib.bind (Client.mk datos (initial_window lib datos) t false)
        (events ++ [Event.surface_configure xs serial os])).crashed = false) ∧
    ((deliver lib.bind (Client.mk datos (initial_window lib datos) t false)
        (events ++ [Event.surface_configure xs serial os])).crashed = false →
      (deliver lib.bind (Client.mk datos (initial_window lib datos) t false)
          (events ++ [Event.surface_configure xs serial os])).trace
        = (deliver lib.bind (Client.mk datos (initial_window lib datos) t false)
            events).trace ++
          ([Action.ack_configure xs serial] ++
            (create_buffer os datos.shm (toUInt32 (last_toplevel_size events).1)
              (toUInt32 (last_toplevel_size events).2)).trace ++
            [Action.attach lib.surface os.buffer 0 0, Action.commit lib.surface]) ∧
      Action.pool_create_buffer os.pool 0 (last_toplevel_size events).1
          (last_toplevel_size events).2
          (toInt32 (create_buffer os datos.shm (toUInt32 (last_toplevel_size events).1)
            (toUInt32 (last_toplevel_size events).2)).stride) WL_SHM_FORMAT_ARGB8888
        ∈ (create_buffer os datos.shm (toUInt32 (last_toplevel_size events).1)
            (toUInt32 (last_toplevel_size events).2)).trace ∧
      (create_buffer os datos.shm (toUInt32 (last_toplevel_size events).1)
          (toUInt32 (last_toplevel_size events).2)).trace.countP Action.isWindowRequest = 2) ∧
    (os.mmap_ok = true →
      (deliver lib.bind (Client.mk datos (initial_window lib datos) t false)
          [Event.toplevel_configure 640 480, Event.surface_configure xs serial os]).trace
        = t ++ ([Action.ack_configure xs serial] ++
            ((create_shm_file os 1228800).2 ++
              [Action.sys_mmap 1228800 (create_shm_file os 1228800).1,
               Action.create_pool datos.shm (create_shm_file os 1228800).1 1228800,
               Action.pool_create_buffer os.pool 0 640 480 2560 WL_SHM_FORMAT_ARGB8888,
               Action.pool_destroy os.pool,
               Action.sys_close (create_shm_file os 1228800).1,
               Action.sys_munmap 1228800]) ++
            [Action.attach lib.surface os.buffer 0 0, Action.commit lib.surface])) := by
  refine ⟨?_, ?_, resize_before_first_configure lib datos t xs serial os⟩
  · intro hm hmap
    apply deliver_not_crashed lib.bind _ _ rfl
    intro e he
    rw [List.mem_append, List.mem_singleton] at he
    rcases he with he | he
    · exact hm e he
    · subst he; exact hmap
  · intro hc
    obtain ⟨h1, h2⟩ := configure_after_events lib datos t events xs serial os hwf hc
    refine ⟨h1, ?_, ?_⟩
    · rw [h2]; simp
    · rw [h2]
      have h3 := create_shm_file_window_free os
        (create_buffer os datos.shm (toUInt32 (last_toplevel_size events).1)
          (toUInt32 (last_toplevel_size events).2)).size
      simp [List.countP_cons, List.countP_append, h3, Action.isWindowRequest]

/-- Scenario B on concrete values, an instance of C2. -/
theorem attached_buffer_matches_last_configure_witness :
    (deliver (fun _ _ _ => 1)
        (Client.mk (Datos.mk 2 3 5) (initial_window (Lib.mk 1 4 (fun _ _ _ => 1) 6 8 10)
          (Datos.mk 2 3 5)) [] false)
        [Event.toplevel_configure 640 480, Event.surface_configure 8 42 os_ok]).trace
      = [Action.ack_configure 8 42, Action.sys_mkstemp, Action.sys_unlink,
         Action.sys_ftruncate 3 1228800, Action.sys_mmap 1228800 3,
         Action.create_pool 5 3 1228800,
         Action.pool_create_buffer 7 0 640 480 2560 0,
         Action.pool_destroy 7, Action.sys_close 3, Action.sys_munmap 1228800,
         Action.attach 6 9 0 0, Action.commit 6] := by
  have hwf : ∀ e ∈ [Event.toplevel_configure 640 480], e.wellFormed := by
    intro e he
    rw [List.mem_singleton] at he
    subst he
    exact ⟨by decide, by decide⟩
  have h := (attached_buffer_matches_last_configure (Lib.mk 1 4 (fun _ _ _ => 1) 6 8 10)
    (Datos.mk 2 3 5) [] [Event.toplevel_configure 640 480] 8 42 os_ok hwf).2.2 rfl
  rw [h]
  decide

/-! ## Which actions the handlers can perform -/

theorem registry_listener_global_free (bind : Nat → String → Nat → Handle) (datos : Datos)
    (id : Nat) (interface : String) (version : Nat) :
    (registry_listener_global bind datos id interface version).2.countP
        Action.isWindowRequest = 0 ∧
    (registry_listener_global bind datos id interface version).2.countP
        Action.isTeardown = 0 := by
  unfold registry_listener_global
  by_cases h1 : interface = "xdg_wm_base"
  · subst h1
    simp [List.countP_cons, Action.isWindowRequest, Action.isTeardown]
  · by_cases h2 : interface = "wl_compositor"
    · subst h2
      simp [List.countP_cons, Action.isWindowRequest, Action.isTeardown]
    · by_cases h3 : interface = "wl_shm"
      · subst h3
        simp [List.countP_cons, Action.isWindowRequest, Action.isTeardown]
      · simp [h1, h2, h3]

theorem dispatch_global_free (bind : Nat → String → Nat → Handle) (datos : Datos)
    (e : GlobalEvent) :
    (dispatch_global bind datos e).2.countP Action.isWindowRequest = 0 ∧
    (dispatch_global bind datos e).2.countP Action.isTeardown = 0 := by
  cases e with
  | global id interface version => exact registry_listener_global_free bind datos id interface version
  | global_remove id => exact ⟨rfl, rfl⟩
  | ping xdg serial => exact ⟨rfl, rfl⟩

theorem discover_free (bind : Nat → String → Nat → Handle) (events : List GlobalEvent) :
    ∀ datos : Datos,
      (discover bind datos events).2.countP Action.isWindowRequest = 0 ∧
      (discover bind datos events).2.countP Action.isTeardown = 0 := by
  induction events with
  | nil => intro datos; exact ⟨rfl, rfl⟩
  | cons e es ih =>
    intro datos
    obtain ⟨g1, g2⟩ := dispatch_global_free bind datos e
    obtain ⟨i1, i2⟩ := ih (dispatch_global bind datos e).1
    show ((dispatch_global bind datos e).2 ++
        (discover bind (dispatch_global bind datos e).1 es).2).countP _ = 0 ∧
      ((dispatch_global bind datos e).2 ++
        (discover bind (dispatch_global bind datos e).1 es).2).countP _ = 0
    rw [List.countP_append, List.countP_append, g1, g2, i1, i2]
    exact ⟨rfl, rfl⟩

theorem create_shm_file_teardown_free (os : OS) (size : Nat) :
    (create_shm_file os size).2.countP Action.isTeardown = 0 := by
  unfold create_shm_file
  dsimp only
  split
  · decide
  · split <;> simp [List.countP_cons, Action.isTeardown]

theorem create_buffer_teardown_free (os : OS) (shm : Handle) (width height : Nat) :
    (create_buffer os shm width height).trace.countP Action.isTeardown = 0 := by
  unfold create_buffer
  dsimp only
  split
  · simp [List.countP_cons, List.countP_append, create_shm_file_teardown_free,
      Action.isTeardown]
  · simp [List.countP_cons, List.countP_append, create_shm_file_teardown_free,
      Action.isTeardown]

theorem handle_configure_teardown_free (os : OS) (win : WindowData) (xs : Handle)
    (serial : Nat) :
    (handle_configure os win xs serial).trace.countP Action.isTeardown = 0 := by
  unfold handle_configure
  dsimp only
  split
  · simp [List.countP_cons, create_buffer_teardown_free, Action.isTeardown]
  · simp [List.countP_cons, List.countP_append, create_buffer_teardown_free,
      Action.isTeardown]

/-- One event only appends to the trace, and appends no teardown action. -/
theorem dispatch_event_trace (bind : Nat → String → Nat → Handle) (c : Client) (e : Event) :
    c.trace <+: (dispatch_event bind c e).trace ∧
    (dispatch_event bind c e).trace.countP Action.isTeardown
      = c.trace.countP Action.isTeardown := by
  unfold dispatch_event
  by_cases hc : c.crashed = true
  · rw [if_pos hc]
    exact ⟨List.prefix_refl _, rfl⟩
  · rw [if_neg hc]
    cases e with
    | base g =>
      refine ⟨List.prefix_append _ _, ?_⟩
      show (c.trace ++ (dispatch_global bind c.datos g).2).countP _ = _
      rw [List.countP_append, (dispatch_global_free bind c.datos g).2, Nat.add_zero]
    | surface_configure xs serial os =>
      refine ⟨List.prefix_append _ _, ?_⟩
      show (c.trace ++ (handle_configure os c.win xs serial).trace).countP _ = _
      rw [List.countP_append, handle_configure_teardown_free, Nat.add_zero]
    | toplevel_configure width height =>
      refine ⟨List.prefix_append _ _, ?_⟩
      show (c.trace ++ (toplevel_handle_configure c.win width height).trace).countP _ = _
      rw [(toplevel_handle_configure_quiet c.win width height).1, List.append_nil]
    | close =>
      refine ⟨List.prefix_append _ _, ?_⟩
      show (c.trace ++ []).countP _ = _
      rw [List.append_nil]
    | configure_bounds width height =>
      refine ⟨List.prefix_append _ _, ?_⟩
      show (c.trace ++ []).countP _ = _
      rw [List.append_nil]
    | wm_capabilities =>
      refine ⟨List.prefix_append _ _, ?_⟩
      show (c.trace ++ []).countP _ = _
      rw [List.append_nil]

theorem deliver_trace (bind : Nat → String → Nat → Handle) (events : List Event) :
    ∀ c : Client, c.trace <+: (deliver bind c events).trace ∧
      (deliver bind c events).trace.countP Action.isTeardown
        = c.trace.countP Action.isTeardown := by
  induction events with
  | nil => intro c; exact ⟨List.prefix_refl _, rfl⟩
  | cons e es ih =>
    intro c
    rw [deliver_cons]
    obtain ⟨p1, q1⟩ := dispatch_event_trace bind c e
    obtain ⟨p2, q2⟩ := ih (dispatch_event bind c e)
    exact ⟨p1.trans p2, q2.trans q1⟩

theorem event_loop_trace (bind : Nat → String → Nat → Handle) (script : List Cycle) :
    ∀ c : Client, c.trace <+: (event_loop bind c script).client.trace ∧
      (event_loop bind c script).client.trace.countP Action.isTeardown
        = c.trace.countP Action.isTeardown := by
  induction script with
  | nil => intro c; exact ⟨List.prefix_refl _, rfl⟩
  | cons cy rest ih =>
    intro c
    obtain ⟨p1, q1⟩ := deliver_trace bind cy.events c
    obtain ⟨p2, q2⟩ := ih (deliver bind c cy.events)
    unfold event_loop
    dsimp only
    split
    · exact ⟨p1, q1⟩
    · split
      · exact ⟨p1.trans p2, q2.trans q1⟩
      · exact ⟨p1, q1⟩

/-- C8: when the display is connected, for every list of events of the
discovery round-trip: if one of the three handles is still null after it,
`main` returns 1 having performed only the registry calls and the binds, none
of which creates a surface, assigns a role, creates a pool or a buffer,
attaches or commits; if all three are non-null, the next action of `main` is
the creation of the surface on the bound compositor. -/
theorem missing_global_is_fatal (lib : Lib) (startup : List GlobalEvent)
    (script : List Cycle) (hd : lib.display ≠ 0) :
    (((discover lib.bind (Datos.mk 0 0 0) startup).1.xdg = 0 ∨
        (discover lib.bind (Datos.mk 0 0 0) startup).1.compositor = 0 ∨
        (discover lib.bind (Datos.mk 0 0 0) startup).1.shm = 0) →
      main lib startup script
        = MainRun.mk
            ([Action.get_registry lib.display, Action.registry_add_listener lib.registry,
              Action.roundtrip lib.display] ++
              (discover lib.bind (Datos.mk 0 0 0) startup).2)
            0 (Exit.returned 1) ∧
      (main lib startup script).trace.countP Action.isWindowRequest = 0) ∧
    (¬ ((discover lib.bind (Datos.mk 0 0 0) startup).1.xdg = 0 ∨
        (discover lib.bind (Datos.mk 0 0 0) startup).1.compositor = 0 ∨
        (discover lib.bind (Datos.mk 0 0 0) startup).1.shm = 0) →
      [Action.get_registry lib.display, Action.registry_add_listener lib.registry,
        Action.roundtrip lib.display] ++
        (discover lib.bind (Datos.mk 0 0 0) startup).2 ++
        [Action.create_surface (discover lib.bind (Datos.mk 0 0 0) startup).1.compositor]
      <+: (main lib startup script).trace) := by
  constructor
  · intro hnull
    have hm : main lib startup script
        = MainRun.mk (registry_setup lib ++ (discover lib.bind (Datos.mk 0 0 0) startup).2)
            0 (Exit.returned 1) := by
      unfold main
      rw [if_neg hd]
      dsimp only
      rw [if_pos hnull]
    refine ⟨hm, ?_⟩
    rw [hm]
    show (registry_setup lib ++ _).countP _ = 0
    rw [List.countP_append, (discover_free lib.bind startup _).1]
    rfl
  · intro hall
    have hloop := (event_loop_trace lib.bind script
      (Client.mk (discover lib.bind (Datos.mk 0 0 0) startup).1
        (initial_window lib (discover lib.bind (Datos.mk 0 0 0) startup).1)
        (registry_setup lib ++ (discover lib.bind (Datos.mk 0 0 0) startup).2 ++
          window_setup lib (discover lib.bind (Datos.mk 0 0 0) startup).1) false)).1
    have hpre : registry_setup lib ++ (discover lib.bind (Datos.mk 0 0 0) startup).2 ++
        [Action.create_surface (discover lib.bind (Datos.mk 0 0 0) startup).1.compositor]
        <+: registry_setup lib ++ (discover lib.bind (Datos.mk 0 0 0) startup).2 ++
          window_setup lib (discover lib.bind (Datos.mk 0 0 0) startup).1 := by
      unfold window_setup
      exact (List.prefix_append_right_inj _).2 ⟨_, rfl⟩
    have hall2 := hpre.trans hloop
    unfold main
    rw [if_neg hd]
    dsimp only
    rw [if_neg hall]
    split
    · exact hall2.trans (List.prefix_append _ _)
    · exact hall2
    · exact hall2

/-- Scenario C, an instance of C8: no shared-memory allocator is advertised. -/
theorem missing_global_is_fatal_witness :
    main lib_sample startup_without_shm script_sample
      = MainRun.mk
          [Action.get_registry 1, Action.registry_add_listener 4, Action.roundtrip 1,
           Action.registry_bind 1 "wl_compositor" 4, Action.registry_bind 3 "xdg_wm_base" 2,
           Action.xdg_wm_base_add_listener 13]
          0 (Exit.returned 1) := by
  have h := ((missing_global_is_fatal lib_sample startup_without_shm script_sample
    (by decide)).1 (by decide)).1
  rw [h]
  decide

end WaylandWindow
